import Mathlib

/-!
Verification development for the AI-Podcast-Generator backend.

The backend is an Express application: an auth middleware runs first on every
/api route, then a per-route rate limiter, then the route handler
(generate-research, generate-audio, scripts CRUD).  External effects (the
Python script-generation service, the ElevenLabs speech service, the Supabase
store, token verification) are modelled as oracles carried in environment
records; each handler returns the HTTP response it produces together with the
trace of external calls it makes, so "makes no upstream call" is the trace
being empty.
-/

namespace AIPodcast

/-! ### Kernel-computable string operations

The JS string methods the backend uses (trim, toLowerCase, startsWith,
substring, join) are modelled over the character list of a string, so that
every handler evaluates inside the kernel on concrete inputs.  Whitespace is
Char.isWhitespace (space, tab, carriage return, newline), which agrees with
JS trim on every input appearing in this development. -/

/-- JS String.prototype.trim: strip leading and trailing whitespace. -/
def jsTrim (s : String) : String :=
  ⟨((s.data.dropWhile Char.isWhitespace).reverse.dropWhile Char.isWhitespace).reverse⟩

/-- JS String.prototype.toLowerCase restricted to ASCII case mapping. -/
def jsToLower (s : String) : String :=
  ⟨s.data.map Char.toLower⟩

/-- Whether the second list is a leading segment of the first. -/
def startsWithList : List Char → List Char → Bool
  | _, [] => true
  | [], _ :: _ => false
  | a :: as, b :: bs => a == b && startsWithList as bs

/-- JS String.prototype.startsWith. -/
def jsStartsWith (s pre : String) : Bool :=
  startsWithList s.data pre.data

/-- JS String.prototype.substring(n): drop the first n characters. -/
def jsDrop (s : String) (n : Nat) : String :=
  ⟨s.data.drop n⟩

/-- JS Array.prototype.join(' '): the strings separated by single spaces. -/
def joinSpace (ts : List String) : String :=
  ⟨List.intercalate [' '] (ts.map String.data)⟩

/-- A JavaScript value as it can appear in a JSON request body field.
"vnull" stands for both JSON null and an absent field (JS undefined):
both are falsy and fail the typeof string/number tests identically. -/
inductive JsonVal where
  | vnull
  | vbool (b : Bool)
  | vnum (q : ℚ)
  | vstr (s : String)
  | varr (xs : List JsonVal)

/-- JS truthiness: undefined/null, false, 0 and the empty string are falsy;
arrays (even empty ones) are truthy. -/
def JsonVal.truthy : JsonVal → Bool
  | .vnull => false
  | .vbool b => b
  | .vnum q => decide (q ≠ 0)
  | .vstr s => decide (s ≠ "")
  | .varr _ => true

/-- Mirrors the JS test "typeof v === 'string'". -/
def JsonVal.isString : JsonVal → Bool
  | .vstr _ => true
  | _ => false

/-- Mirrors the JS test "typeof v === 'number'". -/
def JsonVal.isNumber : JsonVal → Bool
  | .vnum _ => true
  | _ => false

/-- The string payload of a value; only consulted after isString holds. -/
def JsonVal.asString : JsonVal → String
  | .vstr s => s
  | _ => ""

/-- The numeric payload of a value; only consulted after isNumber holds. -/
def JsonVal.asNum : JsonVal → ℚ
  | .vnum q => q
  | _ => 0

/-- One dialogue line of a script, as the audio route receives it:
backend/src/services/elevenlabsService.ts only ever reads the "text" field. -/
structure DialogueLine where
  speaker : String
  text : String
  audioEffect : Option String

/-- Authenticated identity attached to the request by the auth middleware. -/
structure User where
  id : String
  email : Option String

/-- A saved script row of the "scripts" table (backend/database schema). -/
structure ScriptRecord where
  id : String
  user_id : String
  topic : String
  duration_minutes : ℚ
  style : String
  script_data : List JsonVal
  created_at : Nat
  updated_at : Nat

/-- The summary shape selected by GET /api/scripts:
"id, topic, duration_minutes, style, created_at, updated_at"
(no script_data column). -/
structure ScriptSummary where
  id : String
  topic : String
  duration_minutes : ℚ
  style : String
  created_at : Nat
  updated_at : Nat

/-- Projection of a stored row to the list-endpoint summary columns. -/
def summarize (r : ScriptRecord) : ScriptSummary :=
  ⟨r.id, r.topic, r.duration_minutes, r.style, r.created_at, r.updated_at⟩

/-- The external relational store: the rows of the scripts table. -/
abbrev Store := List ScriptRecord

/-- An external call made while serving a request. -/
inductive ExtCall where
  | authVerify (token : String)
  | pythonGenerate (topic : String) (durationMinutes : ℚ) (style : String)
  | dbInsert (user_id : String) (topic : String) (durationMinutes : ℚ)
      (style : String) (script : List JsonVal)
  | dbSelectList (user_id : String)
  | dbSelectOne (id : String) (user_id : String)
  | dbDelete (id : String) (user_id : String)
  | tts (text : String) (voiceId : String)

/-- Response body of a route, as far as the claims need to distinguish them. -/
inductive ResBody where
  | errorMsg (msg : String)
  | scriptResult (script : List JsonVal) (savedId : Option String)
  | audioFile (content : String)
  | scriptsList (xs : List ScriptSummary)
  | fullRecord (r : ScriptRecord)
  | message (msg : String)

/-- An HTTP response: status code plus body. "res.json(x)" with no explicit
status sends 200. -/
structure HttpResponse where
  status : Nat
  body : ResBody

/-! ## Generate-research route (backend/src/routes/generate-research.ts) -/

/-- Outcome of the supabase insert attempt: a returned row with an id,
an error result, or a thrown exception.  The last two are both swallowed. -/
inductive InsertOutcome where
  | ok (id : String)
  | dbErr
  | threw

/-- Oracle environment for the generate-research handler. -/
structure ResearchEnv where
  supabaseConfigured : Bool
  pythonResult : Except String (List JsonVal)
  insertOutcome : InsertOutcome

/-- The fixed list of allowed styles, in source order. -/
def validStyles : List String :=
  ["conversational", "documentary", "investigative", "educational", "storytelling"]

/-- The style-rejection message the route builds by joining validStyles
with ", ". -/
def styleListMessage : String :=
  ⟨"Style must be one of: ".data ++ List.intercalate ", ".data (validStyles.map String.data)⟩

/-- Mirrors "!topic || typeof topic !== 'string' || topic.trim().length === 0". -/
def topicInvalid (t : JsonVal) : Prop :=
  ¬ t.truthy ∨ ¬ t.isString ∨ jsTrim t.asString = ""

instance (t : JsonVal) : Decidable (topicInvalid t) := by
  unfold topicInvalid; exact inferInstance

/-- Mirrors "!durationMinutes || typeof durationMinutes !== 'number' ||
durationMinutes < 5 || durationMinutes > 120". -/
def durationInvalid (d : JsonVal) : Prop :=
  ¬ d.truthy ∨ ¬ d.isNumber ∨ d.asNum < 5 ∨ 120 < d.asNum

instance (d : JsonVal) : Decidable (durationInvalid d) := by
  unfold durationInvalid; exact inferInstance

/-- Mirrors "!style || typeof style !== 'string'". -/
def styleMissing (s : JsonVal) : Prop :=
  ¬ s.truthy ∨ ¬ s.isString

instance (s : JsonVal) : Decidable (styleMissing s) := by
  unfold styleMissing; exact inferInstance

/-- Mirrors "!validStyles.includes(style.toLowerCase())". -/
def styleNotAllowed (s : JsonVal) : Prop :=
  jsToLower s.asString ∉ validStyles

instance (s : JsonVal) : Decidable (styleNotAllowed s) := by
  unfold styleNotAllowed; exact inferInstance

/-- POST /api/generate-research handler body, after auth and rate limiting.
Returns the response and the trace of external calls made. -/
def generateResearchHandler (env : ResearchEnv) (user : Option User)
    (topic durationMinutes style : JsonVal) : HttpResponse × List ExtCall :=
  if topicInvalid topic then
    (⟨400, .errorMsg "Topic is required and must be a non-empty string"⟩, [])
  else if durationInvalid durationMinutes then
    (⟨400, .errorMsg "Duration must be a number between 5 and 120 minutes"⟩, [])
  else if styleMissing style then
    (⟨400, .errorMsg "Style is required"⟩, [])
  else if styleNotAllowed style then
    (⟨400, .errorMsg styleListMessage⟩, [])
  else
    let call := ExtCall.pythonGenerate (jsTrim topic.asString) durationMinutes.asNum
      (jsToLower style.asString)
    match env.pythonResult with
    | .error msg => (⟨500, .errorMsg msg⟩, [call])
    | .ok script =>
      match env.supabaseConfigured, user with
      | true, some u =>
        let icall := ExtCall.dbInsert u.id (jsTrim topic.asString) durationMinutes.asNum
          (jsToLower style.asString) script
        match env.insertOutcome with
        | .ok savedId => (⟨200, .scriptResult script (some savedId)⟩, [call, icall])
        | .dbErr => (⟨200, .scriptResult script none⟩, [call, icall])
        | .threw => (⟨200, .scriptResult script none⟩, [call, icall])
      | _, _ => (⟨200, .scriptResult script none⟩, [call])

/-! ## Generate-audio route (generate-audio router and elevenlabsService) -/

/-- Oracle environment for the audio route: the configured ElevenLabs key and
voice id, and what the text-to-speech call would return if made (the error
string carries the already-formatted "ElevenLabs API error: ..." message). -/
structure AudioEnv where
  apiKey : Option String
  hostVoiceId : Option String
  ttsResult : Except String String

/-- The hard-coded fallback voice identifier. -/
def defaultVoiceId : String := "21m00Tcm4TlvDq8ikWAM"

/-- "process.env.ELEVENLABS_HOST_VOICE_ID || default". -/
def voiceIdOf (env : AudioEnv) : String :=
  env.hostVoiceId.getD defaultVoiceId

/-- "request.script.map(line => line.text).filter(t => t.trim().length > 0)
.join(' ')". -/
def combineText (script : List DialogueLine) : String :=
  joinSpace
    ((script.map (fun l => l.text)).filter (fun t => decide (0 < (jsTrim t).length)))

/-- generateAudioFromScript of elevenlabsService.ts: key check, combine the
texts, reject an empty blob, otherwise one text-to-speech call. -/
def generateAudioFromScript (env : AudioEnv) (script : List DialogueLine) :
    Except String String × List ExtCall :=
  match env.apiKey with
  | none => (.error "ELEVENLABS_API_KEY not configured", [])
  | some _ =>
    let allText := combineText script
    if jsTrim allText = "" then
      (.error "Script is empty", [])
    else
      match env.ttsResult with
      | .error e => (.error e, [ExtCall.tts allText (voiceIdOf env)])
      | .ok content => (.ok content, [ExtCall.tts allText (voiceIdOf env)])

/-- The body field "script" of a generate-audio request, split by the checks
the route makes: a falsy value, a truthy non-array, or an array of lines.
"!script || !Array.isArray(script)" rejects exactly the first two. -/
inductive ScriptField where
  | missing
  | nonArray
  | lines (xs : List DialogueLine)

/-- POST /api/generate-audio handler body, after auth and rate limiting.
A thrown service error is caught and returned as status 500 with the
error message. -/
def generateAudioHandler (env : AudioEnv) (scriptField : ScriptField) :
    HttpResponse × List ExtCall :=
  match scriptField with
  | .missing => (⟨400, .errorMsg "Script array is required"⟩, [])
  | .nonArray => (⟨400, .errorMsg "Script array is required"⟩, [])
  | .lines xs =>
    match generateAudioFromScript env xs with
    | (.ok content, calls) => (⟨200, .audioFile content⟩, calls)
    | (.error msg, calls) => (⟨500, .errorMsg msg⟩, calls)

/-! ## Scripts CRUD routes (scripts router) -/

/-- Oracle environment for the scripts routes: whether the select queries
error out (other than finding no row) and whether the delete query errors. -/
structure ScriptsEnv where
  readFails : Bool
  deleteFails : Bool

/-- ".eq('id', id).eq('user_id', uid).single()": the first row matching both
filters, none standing for the PGRST116 no-row error. -/
def findScript (s : Store) (sid uid : String) : Option ScriptRecord :=
  s.find? (fun r => r.id == sid && r.user_id == uid)

/-- Descending creation-time order used by the list endpoint. -/
def createdDesc (a b : ScriptRecord) : Prop :=
  b.created_at ≤ a.created_at

instance : DecidableRel createdDesc :=
  fun a b => Nat.decLe b.created_at a.created_at

instance : IsTotal ScriptRecord createdDesc :=
  ⟨fun a b => (Nat.le_total b.created_at a.created_at).elim Or.inl Or.inr⟩

instance : IsTrans ScriptRecord createdDesc :=
  ⟨fun _ _ _ hab hbc => Nat.le_trans hbc hab⟩

/-- ".order('created_at', { ascending: false })". -/
def sortByCreatedDesc (s : Store) : Store :=
  List.insertionSort createdDesc s

/-- GET /api/scripts handler: rows of the caller, summary columns only,
newest first. -/
def scriptsListHandler (env : ScriptsEnv) (store : Option Store)
    (user : Option User) : HttpResponse × List ExtCall :=
  match store, user with
  | some s, some u =>
    if env.readFails then
      (⟨500, .errorMsg "Failed to fetch scripts"⟩, [ExtCall.dbSelectList u.id])
    else
      (⟨200, .scriptsList
          ((sortByCreatedDesc (s.filter (fun r => r.user_id == u.id))).map summarize)⟩,
        [ExtCall.dbSelectList u.id])
  | _, _ => (⟨500, .errorMsg "Database not configured"⟩, [])

/-- GET /api/scripts/:id handler: a PGRST116 no-row error becomes 404,
any other select error becomes 500. -/
def scriptsGetHandler (env : ScriptsEnv) (store : Option Store)
    (user : Option User) (sid : String) : HttpResponse × List ExtCall :=
  match store, user with
  | some s, some u =>
    if env.readFails then
      (⟨500, .errorMsg "Failed to fetch script"⟩, [ExtCall.dbSelectOne sid u.id])
    else
      match findScript s sid u.id with
      | none => (⟨404, .errorMsg "Script not found"⟩, [ExtCall.dbSelectOne sid u.id])
      | some r => (⟨200, .fullRecord r⟩, [ExtCall.dbSelectOne sid u.id])
  | _, _ => (⟨500, .errorMsg "Database not configured"⟩, [])

/-- DELETE /api/scripts/:id handler: the ownership select first ("fetchError
|| !existingScript" both give 404), then the delete itself.  Returns the
response, the store after the request, and the calls made. -/
def scriptsDeleteHandler (env : ScriptsEnv) (store : Option Store)
    (user : Option User) (sid : String) :
    HttpResponse × Option Store × List ExtCall :=
  match store, user with
  | some s, some u =>
    if env.readFails then
      (⟨404, .errorMsg "Script not found"⟩, some s, [ExtCall.dbSelectOne sid u.id])
    else
      match findScript s sid u.id with
      | none =>
        (⟨404, .errorMsg "Script not found"⟩, some s, [ExtCall.dbSelectOne sid u.id])
      | some _ =>
        if env.deleteFails then
          (⟨500, .errorMsg "Failed to delete script"⟩, some s,
            [ExtCall.dbSelectOne sid u.id, ExtCall.dbDelete sid u.id])
        else
          (⟨200, .message "Script deleted successfully"⟩,
            some (s.filter (fun r => !(r.id == sid && r.user_id == u.id))),
            [ExtCall.dbSelectOne sid u.id, ExtCall.dbDelete sid u.id])
  | _, _ => (⟨500, .errorMsg "Database not configured"⟩, store, [])

/-! ## Rate limiter

Modelled from the spec: the limiter itself is the express-rate-limit
dependency, which is not part of this repository; only its configuration
(15-minute window, caps 10 and 5, the two messages) is in src.  Per the
spec it "maintains a per-client sliding window of request timestamps, keyed
by client address, independently per route"; a request finding the cap many
timestamps still inside the window is rejected with 429 and does not reach
the handler, otherwise its timestamp is recorded and the handler runs. -/

/-- 15 minutes in milliseconds, the configured windowMs of both limiters. -/
def windowMs : Nat := 15 * 60 * 1000

/-- State of one route limiter: recorded (clientKey, timestamp) pairs. -/
structure LimiterState where
  hits : List (String × Nat)

/-- How many recorded hits of this client are still inside the window ending
now, i.e. have now < timestamp + windowMs. -/
def recentHits (hits : List (String × Nat)) (key : String) (now : Nat) : Nat :=
  match hits with
  | [] => 0
  | h :: t => (if h.1 = key ∧ now < h.2 + windowMs then 1 else 0) + recentHits t key now

/-- One limiter step: admit and record the request when the client is under
the cap, otherwise reject and leave the state unchanged. -/
def limiterCheck (cap : Nat) (st : LimiterState) (key : String) (now : Nat) :
    Bool × LimiterState :=
  if recentHits st.hits key now < cap then
    (true, ⟨(key, now) :: st.hits⟩)
  else
    (false, st)

/-- Run a sequence of (clientKey, time) requests through one limiter,
pairing each request with whether it was admitted. -/
def processLimiterSeq (cap : Nat) (st : LimiterState) :
    List (String × Nat) → List ((String × Nat) × Bool) × LimiterState
  | [] => ([], st)
  | r :: rs =>
    let step := limiterCheck cap st r.1 r.2
    let rest := processLimiterSeq cap step.2 rs
    ((r, step.1) :: rest.1, rest.2)

/-- Among processed requests, how many admitted ones of this client fall in
the window [T, T + windowMs). -/
def acceptedInWindow (key : String) (T : Nat) :
    List ((String × Nat) × Bool) → Nat
  | [] => 0
  | rb :: rest =>
    (if rb.2 = true ∧ rb.1.1 = key ∧ T ≤ rb.1.2 ∧ rb.1.2 < T + windowMs then 1 else 0)
      + acceptedInWindow key T rest

/-- Recorded hits of this client inside the window [T, T + windowMs). -/
def hitsInWindow (hits : List (String × Nat)) (key : String) (T : Nat) : Nat :=
  match hits with
  | [] => 0
  | h :: t =>
    (if h.1 = key ∧ T ≤ h.2 ∧ h.2 < T + windowMs then 1 else 0) + hitsInWindow t key T

/-- The message configured on the generate-research limiter. -/
def researchLimitMessage : String :=
  "Too many script generation requests, please try again later."

/-- The message configured on the generate-audio limiter. -/
def audioLimitMessage : String :=
  "Too many audio generation requests, please try again later."

/-! ## Server pipeline (server.ts and middleware/auth.ts) -/

/-- One of the mounted /api routes with its parsed request payload. -/
inductive ApiRoute where
  | research (topic durationMinutes style : JsonVal)
  | audio (scriptField : ScriptField)
  | scriptsIndex
  | scriptsGet (sid : String)
  | scriptsDelete (sid : String)

/-- An incoming /api request. -/
structure ApiRequest where
  authHeader : Option String
  clientKey : String
  time : Nat
  route : ApiRoute

/-- The whole backend environment: auth configuration, the token-verification
oracle, and the per-route oracle environments. -/
structure Env where
  authConfigured : Bool
  tokenUser : String → Option User
  research : ResearchEnv
  audio : AudioEnv
  scriptsEnv : ScriptsEnv

/-- Mutable server state across requests: the two limiter states. -/
structure ServerState where
  researchLimiter : LimiterState
  audioLimiter : LimiterState

/-- Everything a processed request produces. -/
structure ApiResult where
  response : HttpResponse
  state : ServerState
  store : Option Store
  calls : List ExtCall

/-- Route dispatch after successful authentication: the mounted rate limiter
runs first on the two generation routes, then the handler. -/
def dispatchRoute (env : Env) (st : ServerState) (store : Option Store)
    (req : ApiRequest) (u : User) (token : String) : ApiResult :=
  match req.route with
  | .research topic dm style =>
    match limiterCheck 10 st.researchLimiter req.clientKey req.time with
    | (false, _) =>
      ⟨⟨429, .errorMsg researchLimitMessage⟩, st, store, [.authVerify token]⟩
    | (true, st1) =>
      let hr := generateResearchHandler env.research (some u) topic dm style
      ⟨hr.1, ⟨st1, st.audioLimiter⟩, store, .authVerify token :: hr.2⟩
  | .audio sf =>
    match limiterCheck 5 st.audioLimiter req.clientKey req.time with
    | (false, _) =>
      ⟨⟨429, .errorMsg audioLimitMessage⟩, st, store, [.authVerify token]⟩
    | (true, st1) =>
      let hr := generateAudioHandler env.audio sf
      ⟨hr.1, ⟨st.researchLimiter, st1⟩, store, .authVerify token :: hr.2⟩
  | .scriptsIndex =>
    let hr := scriptsListHandler env.scriptsEnv store (some u)
    ⟨hr.1, st, store, .authVerify token :: hr.2⟩
  | .scriptsGet sid =>
    let hr := scriptsGetHandler env.scriptsEnv store (some u) sid
    ⟨hr.1, st, store, .authVerify token :: hr.2⟩
  | .scriptsDelete sid =>
    let hr := scriptsDeleteHandler env.scriptsEnv store (some u) sid
    ⟨hr.1, st, hr.2.1, .authVerify token :: hr.2.2⟩

/-- Full processing of one /api request: the auth middleware first
(header shape check, client configuration check, token verification),
then the route with its limiter.  A header that is absent, empty, or not
starting with "Bearer " is rejected before anything else happens. -/
def processApiRequest (env : Env) (st : ServerState) (store : Option Store)
    (req : ApiRequest) : ApiResult :=
  match req.authHeader with
  | none => ⟨⟨401, .errorMsg "Missing or invalid authorization header"⟩, st, store, []⟩
  | some h =>
    if jsStartsWith h "Bearer " = false then
      ⟨⟨401, .errorMsg "Missing or invalid authorization header"⟩, st, store, []⟩
    else if env.authConfigured = false then
      ⟨⟨500, .errorMsg "Authentication service not configured"⟩, st, store, []⟩
    else
      match env.tokenUser (jsDrop h 7) with
      | none =>
        ⟨⟨401, .errorMsg "Invalid or expired token"⟩, st, store,
          [.authVerify (jsDrop h 7)]⟩
      | some u => dispatchRoute env st store req u (jsDrop h 7)

/-! ## Auxiliary notions used by the claims -/

/-- Whether the needle occurs as a contiguous run inside the haystack. -/
def hasSubstringList (needle : List Char) : List Char → Bool
  | [] => needle.isEmpty
  | c :: rest => startsWithList (c :: rest) needle || hasSubstringList needle rest

/-- Whether a message lists the allowed style set: every one of the five
allowed style names occurs in it. -/
def listsAllowedStyles (msg : String) : Bool :=
  validStyles.all (fun sname => hasSubstringList sname.data msg.data)

/-! ## Sample inputs used by witnesses and counterexamples -/

/-- A concrete authenticated user. -/
def sampleUser : User := ⟨"user-1", none⟩

/-- Research oracle: store configured, upstream returns an empty script,
the insert attempt reports a database error. -/
def sampleResearchEnv : ResearchEnv := ⟨true, .ok [], .dbErr⟩

/-- Research oracle with missing store credentials (null supabase client). -/
def sampleResearchEnvNoDb : ResearchEnv := ⟨false, .ok [], .threw⟩

/-- Audio oracle: key configured, no voice override, synthesis succeeds. -/
def sampleAudioEnv : AudioEnv := ⟨some "key", none, .ok "AUDIO"⟩

/-- Scripts oracle: neither reads nor deletes error out. -/
def sampleScriptsEnv : ScriptsEnv := ⟨false, false⟩

/-- A full backend environment accepting every token as sampleUser. -/
def sampleEnv : Env :=
  ⟨true, fun _ => some sampleUser, sampleResearchEnv, sampleAudioEnv, sampleScriptsEnv⟩

/-- Fresh server state: both limiters empty. -/
def sampleState : ServerState := ⟨⟨[]⟩, ⟨[]⟩⟩

/-- A stored script owned by a different user ("user-2"). -/
def recOther : ScriptRecord :=
  ⟨"id-1", "user-2", "coffee", 10, "conversational", [], 5, 5⟩

/-- A stored script owned by sampleUser. -/
def recMine : ScriptRecord :=
  ⟨"id-2", "user-1", "tea", 15, "documentary", [], 9, 9⟩

/-- Server state in which client-a has exhausted both route caps at time 0:
ten recorded research hits and five recorded audio hits. -/
def loadedState : ServerState :=
  ⟨⟨List.replicate 10 ("client-a", 0)⟩, ⟨List.replicate 5 ("client-a", 0)⟩⟩

/-!
## Theorems
-/

/-- A request body with a trimmed non-empty string topic, a number in
[5, 120], and a non-empty style whose lower-casing is allowed passes all
four validation checks of the generate-research route. -/
theorem research_valid_checks (ts ss : String) (q : ℚ)
    (htopic : jsTrim ts ≠ "") (hq5 : 5 ≤ q) (hq120 : q ≤ 120)
    (hss : ss ≠ "") (hstyle : jsToLower ss ∈ validStyles) :
    ¬ topicInvalid (.vstr ts) ∧ ¬ durationInvalid (.vnum q)
    ∧ ¬ styleMissing (.vstr ss) ∧ ¬ styleNotAllowed (.vstr ss) := by
  have hts0 : ts ≠ "" := fun he => htopic (by rw [he]; rfl)
  have hq0 : q ≠ 0 := by intro h; rw [h] at hq5; norm_num at hq5
  refine ⟨?_, ?_, ?_, ?_⟩
  · simp [topicInvalid, JsonVal.truthy, JsonVal.isString, JsonVal.asString, hts0, htopic]
  · simp only [durationInvalid, JsonVal.truthy, JsonVal.isNumber, JsonVal.asNum]
    push_neg
    refine ⟨?_, by decide, by linarith, by linarith⟩
    simp [hq0]
  · simp [styleMissing, JsonVal.truthy, JsonVal.isString, hss]
  · simp [styleNotAllowed, JsonVal.asString, hstyle]

/-- C2: when the request passes validation, the upstream script call
succeeds and the store insert fails (error result or thrown exception),
the generate-research route still answers 200 with the generated script and
a null savedId. -/
theorem c2_persistence_failure_still_succeeds
    (env : ResearchEnv) (u : User) (ts ss : String) (q : ℚ) (script : List JsonVal)
    (htopic : jsTrim ts ≠ "") (hq5 : 5 ≤ q) (hq120 : q ≤ 120)
    (hss : ss ≠ "") (hstyle : jsToLower ss ∈ validStyles)
    (hconf : env.supabaseConfigured = true)
    (hpy : env.pythonResult = .ok script)
    (hins : env.insertOutcome = .dbErr ∨ env.insertOutcome = .threw) :
    generateResearchHandler env (some u) (.vstr ts) (.vnum q) (.vstr ss)
      = (⟨200, .scriptResult script none⟩,
         [.pythonGenerate (jsTrim ts) q (jsToLower ss),
          .dbInsert u.id (jsTrim ts) q (jsToLower ss) script]) := by
  obtain ⟨h1, h2, h3, h4⟩ := research_valid_checks ts ss q htopic hq5 hq120 hss hstyle
  unfold generateResearchHandler
  rw [if_neg h1, if_neg h2, if_neg h3, if_neg h4]
  rcases hins with h | h <;>
    simp [hpy, hconf, h, JsonVal.asString, JsonVal.asNum]

/-- C2 witness: concrete request whose insert errors still gets 200 and a
null savedId. -/
theorem c2_witness :
    generateResearchHandler sampleResearchEnv (some sampleUser)
        (.vstr "t") (.vnum 10) (.vstr "Conversational")
      = (⟨200, .scriptResult [] none⟩,
         [.pythonGenerate "t" 10 "conversational",
          .dbInsert "user-1" "t" 10 "conversational" []]) := by
  exact c2_persistence_failure_still_succeeds sampleResearchEnv sampleUser
    "t" "Conversational" 10 [] (by decide) (by norm_num) (by norm_num) (by decide)
    (by decide) rfl rfl (Or.inl rfl)

/-- C10: with the store client null (missing credentials) the
generate-research route silently skips persistence: a valid request whose
upstream call succeeds gets 200 with a null savedId and no insert call,
while the scripts list route fails with 500 in the same configuration. -/
theorem c10_unconfigured_store_skips_persistence
    (env : ResearchEnv) (u : User) (ts ss : String) (q : ℚ) (script : List JsonVal)
    (htopic : jsTrim ts ≠ "") (hq5 : 5 ≤ q) (hq120 : q ≤ 120)
    (hss : ss ≠ "") (hstyle : jsToLower ss ∈ validStyles)
    (hconf : env.supabaseConfigured = false)
    (hpy : env.pythonResult = .ok script) :
    generateResearchHandler env (some u) (.vstr ts) (.vnum q) (.vstr ss)
      = (⟨200, .scriptResult script none⟩,
         [.pythonGenerate (jsTrim ts) q (jsToLower ss)])
    ∧ (∀ senv : ScriptsEnv, scriptsListHandler senv none (some u)
        = (⟨500, .errorMsg "Database not configured"⟩, [])) := by
  obtain ⟨h1, h2, h3, h4⟩ := research_valid_checks ts ss q htopic hq5 hq120 hss hstyle
  constructor
  · unfold generateResearchHandler
    rw [if_neg h1, if_neg h2, if_neg h3, if_neg h4]
    simp [hpy, hconf, JsonVal.asString, JsonVal.asNum]
  · intro senv; rfl

/-- C10 witness: concrete valid request with no store credentials. -/
theorem c10_witness :
    generateResearchHandler sampleResearchEnvNoDb (some sampleUser)
        (.vstr "t") (.vnum 10) (.vstr "conversational")
      = (⟨200, .scriptResult [] none⟩, [.pythonGenerate "t" 10 "conversational"])
    ∧ scriptsListHandler sampleScriptsEnv none (some sampleUser)
      = (⟨500, .errorMsg "Database not configured"⟩, []) := by
  have h := c10_unconfigured_store_skips_persistence sampleResearchEnvNoDb sampleUser
    "t" "conversational" 10 [] (by decide) (by norm_num) (by norm_num) (by decide)
    (by decide) rfl rfl
  exact ⟨h.1, h.2 sampleScriptsEnv⟩

/-- C5 counterexample: the empty-string style lower-cases to a value outside
the allowed set, yet the route answers with the message "Style is required",
which does not list the allowed set — refuting the claim that every request
whose lower-cased style is outside the set gets a message listing the set. -/
theorem c5_counterexample :
    jsToLower ((JsonVal.vstr "").asString) ∉ validStyles
    ∧ (generateResearchHandler sampleResearchEnv (some sampleUser)
        (.vstr "t") (.vnum 10) (.vstr "")).1
      = ⟨400, .errorMsg "Style is required"⟩
    ∧ listsAllowedStyles "Style is required" = false
    ∧ (generateResearchHandler sampleResearchEnv (some sampleUser)
        (.vstr "t") (.vnum 10) (.vstr "")).2 = [] := by
  exact ⟨by decide, rfl, by decide, rfl⟩

/-- C5 amended: a style that is a non-empty string whose lower-casing is
outside the allowed set (with topic and duration valid) is rejected with 400
and the message that does list the allowed set, with no upstream call; an
absent, empty or non-string style is rejected earlier with 400
"Style is required"; for accepted requests the style forwarded upstream is
the lower-cased style and the topic forwarded is the trimmed topic. -/
theorem c5_amended :
    (∀ (env : ResearchEnv) (user : Option User) (ts ss : String) (q : ℚ),
      jsTrim ts ≠ "" → 5 ≤ q → q ≤ 120 → ss ≠ "" → jsToLower ss ∉ validStyles →
        generateResearchHandler env user (.vstr ts) (.vnum q) (.vstr ss)
          = (⟨400, .errorMsg styleListMessage⟩, []))
    ∧ listsAllowedStyles styleListMessage = true
    ∧ (∀ (env : ResearchEnv) (user : Option User) (topic dm sv : JsonVal),
        ¬ topicInvalid topic → ¬ durationInvalid dm → styleMissing sv →
          generateResearchHandler env user topic dm sv
            = (⟨400, .errorMsg "Style is required"⟩, []))
    ∧ (∀ (env : ResearchEnv) (user : Option User) (ts ss : String) (q : ℚ),
        jsTrim ts ≠ "" → 5 ≤ q → q ≤ 120 → ss ≠ "" → jsToLower ss ∈ validStyles →
          (generateResearchHandler env user (.vstr ts) (.vnum q) (.vstr ss)).2.head?
            = some (.pythonGenerate (jsTrim ts) q (jsToLower ss))) := by
  refine ⟨?_, by decide, ?_, ?_⟩
  · intro env user ts ss q htopic hq5 hq120 hss hbad
    have hts0 : ts ≠ "" := fun he => htopic (by rw [he]; rfl)
    have hq0 : q ≠ 0 := by intro h; rw [h] at hq5; norm_num at hq5
    have h1 : ¬ topicInvalid (.vstr ts) := by
      simp [topicInvalid, JsonVal.truthy, JsonVal.isString, JsonVal.asString, hts0, htopic]
    have h2 : ¬ durationInvalid (.vnum q) := by
      simp only [durationInvalid, JsonVal.truthy, JsonVal.isNumber, JsonVal.asNum]
      push_neg
      refine ⟨?_, by decide, by linarith, by linarith⟩
      simp [hq0]
    have h3 : ¬ styleMissing (.vstr ss) := by
      simp [styleMissing, JsonVal.truthy, JsonVal.isString, hss]
    have h4 : styleNotAllowed (.vstr ss) := hbad
    unfold generateResearchHandler
    rw [if_neg h1, if_neg h2, if_neg h3, if_pos h4]
  · intro env user topic dm sv h1 h2 h3
    unfold generateResearchHandler
    rw [if_neg h1, if_neg h2, if_pos h3]
  · intro env user ts ss q htopic hq5 hq120 hss hstyle
    obtain ⟨h1, h2, h3, h4⟩ := research_valid_checks ts ss q htopic hq5 hq120 hss hstyle
    unfold generateResearchHandler
    rw [if_neg h1, if_neg h2, if_neg h3, if_neg h4]
    cases hpy : env.pythonResult with
    | error msg => simp [JsonVal.asString, JsonVal.asNum]
    | ok script =>
      cases hconf : env.supabaseConfigured <;> cases user <;>
        cases env.insertOutcome <;> simp [JsonVal.asString, JsonVal.asNum]

/-- C5 amended witness: style "Formal" (valid otherwise) is rejected with the
message listing the allowed set; missing style gets "Style is required";
an accepted request forwards the trimmed topic and lower-cased style. -/
theorem c5_witness :
    generateResearchHandler sampleResearchEnv (some sampleUser)
        (.vstr "t") (.vnum 10) (.vstr "Formal")
      = (⟨400, .errorMsg styleListMessage⟩, [])
    ∧ generateResearchHandler sampleResearchEnv (some sampleUser)
        (.vstr "t") (.vnum 10) .vnull
      = (⟨400, .errorMsg "Style is required"⟩, [])
    ∧ (generateResearchHandler sampleResearchEnv (some sampleUser)
        (.vstr " The history of coffee ") (.vnum 10) (.vstr "Conversational")).2.head?
      = some (.pythonGenerate (jsTrim " The history of coffee ") 10
          (jsToLower "Conversational")) := by
  refine ⟨?_, ?_, ?_⟩
  · exact c5_amended.1 sampleResearchEnv (some sampleUser) "t" "Formal" 10
      (by decide) (by norm_num) (by norm_num) (by decide) (by decide)
  · exact c5_amended.2.2.1 sampleResearchEnv (some sampleUser)
      (.vstr "t") (.vnum 10) .vnull (by decide) (by decide) (by decide)
  · exact c5_amended.2.2.2 sampleResearchEnv (some sampleUser)
      " The history of coffee " "Conversational" 10
      (by decide) (by norm_num) (by norm_num) (by decide) (by decide)

/-- C1 counterexample: with the speech key configured, an empty script array
and a whitespace-only script both pass the route check "!script ||
!Array.isArray(script)", so the service throws "Script is empty" and the
route answers 500, not the claimed 400 — though indeed without calling the
speech service. -/
theorem c1_counterexample :
    (generateAudioHandler sampleAudioEnv (.lines [])).1.status = 500
    ∧ ¬ (generateAudioHandler sampleAudioEnv (.lines [])).1.status = 400
    ∧ (generateAudioHandler sampleAudioEnv
        (.lines [⟨"Host", "  ", none⟩])).1 = ⟨500, .errorMsg "Script is empty"⟩
    ∧ ¬ (generateAudioHandler sampleAudioEnv
        (.lines [⟨"Host", "  ", none⟩])).1.status = 400
    ∧ (generateAudioHandler sampleAudioEnv (.lines [])).2 = []
    ∧ (generateAudioHandler sampleAudioEnv (.lines [⟨"Host", "  ", none⟩])).2 = [] := by
  exact ⟨rfl, by decide, rfl, by decide, rfl, rfl⟩

/-- C1 amended: a script that is an empty array, or whose every line is
whitespace-only, passes the route's array check; the audio service then
throws before contacting the speech service, and the route returns 500 —
with body "Script is empty" whenever the speech key is configured (and the
missing-key message otherwise).  No external call is made either way. -/
theorem c1_amended (env : AudioEnv) (xs : List DialogueLine)
    (hws : ∀ l ∈ xs, jsTrim l.text = "") :
    (generateAudioHandler env (.lines xs)).1.status = 500
    ∧ (generateAudioHandler env (.lines xs)).2 = []
    ∧ (∀ k, env.apiKey = some k →
        (generateAudioHandler env (.lines xs)).1 = ⟨500, .errorMsg "Script is empty"⟩) := by
  have hfilter : (xs.map (fun l => l.text)).filter
      (fun t => decide (0 < (jsTrim t).length)) = [] := by
    apply List.filter_eq_nil_iff.mpr
    intro t ht
    obtain ⟨l, hl, rfl⟩ := List.mem_map.mp ht
    simp [hws l hl]
  have hcomb : combineText xs = "" := by
    unfold combineText
    rw [hfilter]
    rfl
  have hts : jsTrim "" = "" := by decide
  cases hk : env.apiKey with
  | none =>
    refine ⟨?_, ?_, ?_⟩ <;>
      simp [generateAudioHandler, generateAudioFromScript, hk]
  | some k =>
    refine ⟨?_, ?_, ?_⟩ <;>
      simp [generateAudioHandler, generateAudioFromScript, hk, hcomb, hts]

/-- C1 amended witness: the all-whitespace two-line script gets 500
"Script is empty" and an empty call trace. -/
theorem c1_witness :
    (generateAudioHandler sampleAudioEnv
        (.lines [⟨"Host", " ", none⟩, ⟨"Guest", "", some "pause"⟩])).1.status = 500
    ∧ (generateAudioHandler sampleAudioEnv
        (.lines [⟨"Host", " ", none⟩, ⟨"Guest", "", some "pause"⟩])).2 = []
    ∧ (generateAudioHandler sampleAudioEnv
        (.lines [⟨"Host", " ", none⟩, ⟨"Guest", "", some "pause"⟩])).1
      = ⟨500, .errorMsg "Script is empty"⟩ := by
  have h := c1_amended sampleAudioEnv [⟨"Host", " ", none⟩, ⟨"Guest", "", some "pause"⟩]
    (by intro l hl; fin_cases hl <;> decide)
  exact ⟨h.1, h.2.1, h.2.2 "key" rfl⟩

/-- C8: the text sent to the speech service is exactly the line texts in
order with whitespace-only texts removed, joined by single spaces, spoken
with the single configured voice; the speaker names and audioEffect fields
of the lines have no influence on the result at all. -/
theorem c8_audio_text_single_voice (env : AudioEnv) (k : String)
    (script : List DialogueLine) (hkey : env.apiKey = some k) :
    (jsTrim (combineText script) ≠ "" →
      (generateAudioFromScript env script).2
        = [ExtCall.tts (combineText script) (voiceIdOf env)]
      ∧ combineText script
        = joinSpace ((script.map (fun l => l.text)).filter
            (fun t => decide (0 < (jsTrim t).length))))
    ∧ (∀ script2 : List DialogueLine,
        script.map (fun l => l.text) = script2.map (fun l => l.text) →
        generateAudioFromScript env script = generateAudioFromScript env script2) := by
  constructor
  · intro hne
    refine ⟨?_, rfl⟩
    unfold generateAudioFromScript
    rw [hkey]
    simp only [if_neg hne]
    cases env.ttsResult <;> rfl
  · intro script2 hmap
    have hsame : combineText script = combineText script2 := by
      unfold combineText
      rw [hmap]
    unfold generateAudioFromScript
    rw [hsame]

/-- C8 witness: a concrete two-speaker script with a whitespace line and an
audioEffect marker synthesizes "hi ok" with the default voice, and changing
speakers and markers leaves the computation unchanged. -/
theorem c8_witness :
    (generateAudioFromScript sampleAudioEnv
        [⟨"Host", "hi", none⟩, ⟨"Guest", "  ", none⟩, ⟨"Guest", "ok", some "laugh"⟩]).2
      = [ExtCall.tts (combineText
          [⟨"Host", "hi", none⟩, ⟨"Guest", "  ", none⟩, ⟨"Guest", "ok", some "laugh"⟩])
          (voiceIdOf sampleAudioEnv)]
    ∧ generateAudioFromScript sampleAudioEnv
        [⟨"Host", "hi", none⟩, ⟨"Guest", "  ", none⟩, ⟨"Guest", "ok", some "laugh"⟩]
      = generateAudioFromScript sampleAudioEnv
        [⟨"A", "hi", some "x"⟩, ⟨"B", "  ", some "y"⟩, ⟨"C", "ok", none⟩] := by
  have h := c8_audio_text_single_voice sampleAudioEnv "key"
    [⟨"Host", "hi", none⟩, ⟨"Guest", "  ", none⟩, ⟨"Guest", "ok", some "laugh"⟩] rfl
  exact ⟨(h.1 (by decide)).1,
    h.2 [⟨"A", "hi", some "x"⟩, ⟨"B", "  ", some "y"⟩, ⟨"C", "ok", none⟩] rfl⟩

/-- C6: when no stored record has the requested id with the caller as owner
(covering both "no such record" and "owned by someone else"), GET and
DELETE /api/scripts/:id return the one fixed 404 "Script not found"
response, never 403; and after a successful DELETE, repeating the same
DELETE on the resulting store returns that same 404. -/
theorem c6_notfound_uniform (senv : ScriptsEnv) (s : Store) (u : User) (sid : String)
    (hread : senv.readFails = false) :
    ((∀ r ∈ s, r.id = sid → r.user_id ≠ u.id) →
        scriptsGetHandler senv (some s) (some u) sid
          = (⟨404, .errorMsg "Script not found"⟩, [ExtCall.dbSelectOne sid u.id])
        ∧ scriptsDeleteHandler senv (some s) (some u) sid
          = (⟨404, .errorMsg "Script not found"⟩, some s, [ExtCall.dbSelectOne sid u.id]))
    ∧ (scriptsGetHandler senv (some s) (some u) sid).1.status ≠ 403
    ∧ (scriptsDeleteHandler senv (some s) (some u) sid).1.status ≠ 403
    ∧ (senv.deleteFails = false → ∀ r, findScript s sid u.id = some r →
        (scriptsDeleteHandler senv (some s) (some u) sid).1
          = ⟨200, .message "Script deleted successfully"⟩
        ∧ ∀ s2, (scriptsDeleteHandler senv (some s) (some u) sid).2.1 = some s2 →
            (scriptsDeleteHandler senv (some s2) (some u) sid).1
              = ⟨404, .errorMsg "Script not found"⟩) := by
  refine ⟨?_, ?_, ?_, ?_⟩
  · intro hmiss
    have hnone : findScript s sid u.id = none := by
      apply List.find?_eq_none.mpr
      intro r hr
      simp only [Bool.and_eq_true, beq_iff_eq, not_and]
      intro hid
      exact hmiss r hr hid
    constructor
    · simp [scriptsGetHandler, hread, hnone]
    · simp [scriptsDeleteHandler, hread, hnone]
  · cases hf : findScript s sid u.id with
    | none => simp [scriptsGetHandler, hread, hf]
    | some r => simp [scriptsGetHandler, hread, hf]
  · cases hf : findScript s sid u.id with
    | none => simp [scriptsDeleteHandler, hread, hf]
    | some r =>
      cases hdel : senv.deleteFails <;>
        simp [scriptsDeleteHandler, hread, hf, hdel]
  · intro hdel r hfound
    have hstep : scriptsDeleteHandler senv (some s) (some u) sid
        = (⟨200, .message "Script deleted successfully"⟩,
           some (s.filter (fun x => !(x.id == sid && x.user_id == u.id))),
           [ExtCall.dbSelectOne sid u.id, ExtCall.dbDelete sid u.id]) := by
      simp [scriptsDeleteHandler, hread, hfound, hdel]
    refine ⟨by rw [hstep], ?_⟩
    intro s2 hs2
    rw [hstep] at hs2
    have hs2e : s2 = s.filter (fun x => !(x.id == sid && x.user_id == u.id)) := by
      cases hs2; rfl
    have hnone2 : findScript s2 sid u.id = none := by
      apply List.find?_eq_none.mpr
      intro x hx
      rw [hs2e] at hx
      have h2 := (List.mem_filter.mp hx).2
      intro hcontra
      rw [hcontra] at h2
      simp at h2
    simp [scriptsDeleteHandler, hread, hnone2]

/-- C6 witness: for the store holding a record with id "id-1" owned by
another user and a record "id-2" owned by the caller, GET and DELETE of
"id-1" give the fixed 404, no response is 403, and deleting "id-2" twice
gives success then 404. -/
theorem c6_witness :
    (scriptsGetHandler sampleScriptsEnv (some [recOther, recMine]) (some sampleUser) "id-1"
      = (⟨404, .errorMsg "Script not found"⟩, [ExtCall.dbSelectOne "id-1" "user-1"])
    ∧ scriptsDeleteHandler sampleScriptsEnv (some [recOther, recMine]) (some sampleUser) "id-1"
      = (⟨404, .errorMsg "Script not found"⟩, some [recOther, recMine],
         [ExtCall.dbSelectOne "id-1" "user-1"]))
    ∧ (scriptsDeleteHandler sampleScriptsEnv (some [recOther, recMine])
        (some sampleUser) "id-2").1
      = ⟨200, .message "Script deleted successfully"⟩
    ∧ (scriptsDeleteHandler sampleScriptsEnv (some [recOther]) (some sampleUser) "id-2").1
      = ⟨404, .errorMsg "Script not found"⟩ := by
  have hmiss := (c6_notfound_uniform sampleScriptsEnv [recOther, recMine]
    sampleUser "id-1" rfl).1 (by
      intro r hr
      simp only [List.mem_cons, List.not_mem_nil, or_false] at hr
      rcases hr with rfl | rfl <;> decide)
  have hdouble := (c6_notfound_uniform sampleScriptsEnv [recOther, recMine]
    sampleUser "id-2" rfl).2.2.2 rfl recMine rfl
  refine ⟨hmiss, hdouble.1, ?_⟩
  exact hdouble.2 [recOther] rfl

/-- C9: the scripts list endpoint returns, with status 200, exactly the
caller-owned records sorted by creation time descending and projected to
summaries; every returned summary comes from a record owned by the caller,
the output is sorted newest-first, and the summary projection ignores the
script_data payload entirely. -/
theorem c9_scripts_list (senv : ScriptsEnv) (s : Store) (u : User)
    (hread : senv.readFails = false) :
    scriptsListHandler senv (some s) (some u)
      = (⟨200, .scriptsList ((sortByCreatedDesc
            (s.filter (fun r => r.user_id == u.id))).map summarize)⟩,
         [ExtCall.dbSelectList u.id])
    ∧ (∀ x ∈ (sortByCreatedDesc (s.filter (fun r => r.user_id == u.id))).map summarize,
        ∃ r ∈ s, r.user_id = u.id ∧ x = summarize r)
    ∧ List.Sorted (fun a b : ScriptSummary => b.created_at ≤ a.created_at)
        ((sortByCreatedDesc (s.filter (fun r => r.user_id == u.id))).map summarize)
    ∧ (∀ (r : ScriptRecord) (d : List JsonVal),
        summarize { r with script_data := d } = summarize r) := by
  refine ⟨by simp [scriptsListHandler, hread], ?_, ?_, fun r d => rfl⟩
  · intro x hx
    obtain ⟨r, hr, rfl⟩ := List.mem_map.mp hx
    have hrf : r ∈ s.filter (fun r => r.user_id == u.id) :=
      (List.perm_insertionSort createdDesc _).mem_iff.mp hr
    obtain ⟨hrs, hown⟩ := List.mem_filter.mp hrf
    exact ⟨r, hrs, by simpa using hown, rfl⟩
  · have hsorted : List.Sorted createdDesc
        (sortByCreatedDesc (s.filter (fun r => r.user_id == u.id))) :=
      List.sorted_insertionSort createdDesc _
    exact hsorted.map summarize (fun a b hab => hab)

/-- C9 witness: a concrete store with one foreign and two owned records
lists exactly the owned ones, newest first. -/
theorem c9_witness :
    scriptsListHandler sampleScriptsEnv
        (some [recMine, recOther, ⟨"id-3", "user-1", "cocoa", 7, "educational", [], 20, 21⟩])
        (some sampleUser)
      = (⟨200, .scriptsList [⟨"id-3", "cocoa", 7, "educational", 20, 21⟩,
          ⟨"id-2", "tea", 15, "documentary", 9, 9⟩]⟩,
         [ExtCall.dbSelectList "user-1"])
    ∧ List.Sorted (fun a b : ScriptSummary => b.created_at ≤ a.created_at)
        ((sortByCreatedDesc
          ([recMine, recOther, ⟨"id-3", "user-1", "cocoa", 7, "educational", [], 20, 21⟩].filter
            (fun r => r.user_id == sampleUser.id))).map summarize) := by
  have h := c9_scripts_list sampleScriptsEnv
    [recMine, recOther, ⟨"id-3", "user-1", "cocoa", 7, "educational", [], 20, 21⟩]
    sampleUser rfl
  refine ⟨?_, h.2.2.1⟩
  rw [h.1]
  rfl

/-- C3: a request to any /api route whose Authorization header is absent or
does not start with "Bearer " gets the fixed 401 response, with both limiter
states and the store untouched and no external call of any kind — the auth
gate runs strictly before the rate limiter and the handler. -/
theorem c3_unauthenticated_untouched (env : Env) (st : ServerState)
    (store : Option Store) (req : ApiRequest)
    (hbad : ∀ h, req.authHeader = some h → jsStartsWith h "Bearer " = false) :
    processApiRequest env st store req
      = ⟨⟨401, .errorMsg "Missing or invalid authorization header"⟩, st, store, []⟩ := by
  unfold processApiRequest
  cases hh : req.authHeader with
  | none => rfl
  | some h => simp [hbad h hh]

/-- C3 witness: a missing header and a non-Bearer header on each kind of
route leave the state alone and answer 401. -/
theorem c3_witness :
    processApiRequest sampleEnv sampleState (some [recMine])
        ⟨none, "client-a", 0, .research (.vstr "t") (.vnum 10) (.vstr "conversational")⟩
      = ⟨⟨401, .errorMsg "Missing or invalid authorization header"⟩,
         sampleState, some [recMine], []⟩
    ∧ processApiRequest sampleEnv sampleState (some [recMine])
        ⟨some "Token abc", "client-a", 0, .scriptsDelete "id-2"⟩
      = ⟨⟨401, .errorMsg "Missing or invalid authorization header"⟩,
         sampleState, some [recMine], []⟩
    ∧ processApiRequest sampleEnv sampleState none
        ⟨some "", "client-a", 0, .audio (.lines [⟨"Host", "hi", none⟩])⟩
      = ⟨⟨401, .errorMsg "Missing or invalid authorization header"⟩,
         sampleState, none, []⟩ := by
  refine ⟨?_, ?_, ?_⟩
  · exact c3_unauthenticated_untouched sampleEnv sampleState (some [recMine]) _
      (by intro h hh; cases hh)
  · exact c3_unauthenticated_untouched sampleEnv sampleState (some [recMine]) _
      (by intro h hh; cases hh; decide)
  · exact c3_unauthenticated_untouched sampleEnv sampleState none _
      (by intro h hh; cases hh; decide)

/-- Counting a window interval with a bound on the right end point: every
hit inside [T, T + windowMs) is still recent at any moment before
T + windowMs. -/
theorem hitsInWindow_le_recentHits (hits : List (String × Nat)) (key : String)
    (T now : Nat) (hnow : now < T + windowMs) :
    hitsInWindow hits key T ≤ recentHits hits key now := by
  induction hits with
  | nil => simp [hitsInWindow, recentHits]
  | cons h t ih =>
    unfold hitsInWindow recentHits
    by_cases h1 : h.1 = key ∧ T ≤ h.2 ∧ h.2 < T + windowMs
    · have h2 : h.1 = key ∧ now < h.2 + windowMs := ⟨h1.1, by omega⟩
      rw [if_pos h1, if_pos h2]
      omega
    · rw [if_neg h1]
      by_cases h2 : h.1 = key ∧ now < h.2 + windowMs
      · rw [if_pos h2]; omega
      · rw [if_neg h2]; omega

/-- Sliding-window invariant of the limiter: starting from any state whose
recorded hits for a client inside a window [T, T + windowMs) do not exceed
the cap, the admitted requests of that client inside the window plus those
recorded hits never exceed the cap. -/
theorem limiter_window_bound (cap : Nat) (key : String) (T : Nat) :
    ∀ (rs : List (String × Nat)) (st : LimiterState),
      hitsInWindow st.hits key T ≤ cap →
      acceptedInWindow key T (processLimiterSeq cap st rs).1
        + hitsInWindow st.hits key T ≤ cap := by
  intro rs
  induction rs with
  | nil =>
    intro st hst
    simpa [processLimiterSeq, acceptedInWindow] using hst
  | cons r rs ih =>
    intro st hst
    unfold processLimiterSeq limiterCheck
    by_cases hacc : recentHits st.hits r.1 r.2 < cap
    · rw [if_pos hacc]
      simp only [acceptedInWindow]
      by_cases hc : r.1 = key ∧ T ≤ r.2 ∧ r.2 < T + windowMs
      · have hlt : hitsInWindow st.hits key T < cap := by
          have hmono := hitsInWindow_le_recentHits st.hits key T r.2 hc.2.2
          rw [hc.1] at hacc
          omega
        have hst1 : hitsInWindow ((r.1, r.2) :: st.hits) key T ≤ cap := by
          unfold hitsInWindow
          rw [if_pos hc]
          omega
        have ih2 := ih ⟨(r.1, r.2) :: st.hits⟩ hst1
        rw [if_pos (by exact ⟨by trivial, hc⟩)]
        unfold hitsInWindow at ih2
        rw [if_pos hc] at ih2
        omega
      · have hst1 : hitsInWindow ((r.1, r.2) :: st.hits) key T ≤ cap := by
          unfold hitsInWindow
          rw [if_neg hc]
          omega
        have ih2 := ih ⟨(r.1, r.2) :: st.hits⟩ hst1
        rw [if_neg (by intro hcon; exact hc hcon.2)]
        unfold hitsInWindow at ih2
        rw [if_neg hc] at ih2
        omega
    · rw [if_neg hacc]
      simp only [acceptedInWindow]
      rw [if_neg (by intro hcon; cases hcon.1)]
      have ih2 := ih st hst
      omega

/-- C7: within any 15-minute window a client gets at most 10 admitted
generate-research requests and at most 5 admitted generate-audio requests,
each route counted by its own limiter; an authenticated request arriving
with the cap already reached gets 429 with the retry message, leaves both
limiter states and the store unchanged, and causes no handler or service
call (only the already-performed token verification); an admitted request
records its timestamp in its own route limiter only and runs the handler. -/
theorem c7_rate_limits :
    (∀ (rs : List (String × Nat)) (key : String) (T : Nat),
        acceptedInWindow key T (processLimiterSeq 10 ⟨[]⟩ rs).1 ≤ 10)
    ∧ (∀ (rs : List (String × Nat)) (key : String) (T : Nat),
        acceptedInWindow key T (processLimiterSeq 5 ⟨[]⟩ rs).1 ≤ 5)
    ∧ (∀ (env : Env) (st : ServerState) (store : Option Store) (h : String)
         (u : User) (topic dm style : JsonVal) (ck : String) (t : Nat),
        jsStartsWith h "Bearer " = true → env.authConfigured = true →
        env.tokenUser (jsDrop h 7) = some u →
        ¬ recentHits st.researchLimiter.hits ck t < 10 →
        processApiRequest env st store ⟨some h, ck, t, .research topic dm style⟩
          = ⟨⟨429, .errorMsg researchLimitMessage⟩, st, store,
             [.authVerify (jsDrop h 7)]⟩)
    ∧ (∀ (env : Env) (st : ServerState) (store : Option Store) (h : String)
         (u : User) (sf : ScriptField) (ck : String) (t : Nat),
        jsStartsWith h "Bearer " = true → env.authConfigured = true →
        env.tokenUser (jsDrop h 7) = some u →
        ¬ recentHits st.audioLimiter.hits ck t < 5 →
        processApiRequest env st store ⟨some h, ck, t, .audio sf⟩
          = ⟨⟨429, .errorMsg audioLimitMessage⟩, st, store,
             [.authVerify (jsDrop h 7)]⟩)
    ∧ (∀ (env : Env) (st : ServerState) (store : Option Store) (h : String)
         (u : User) (topic dm style : JsonVal) (ck : String) (t : Nat),
        jsStartsWith h "Bearer " = true → env.authConfigured = true →
        env.tokenUser (jsDrop h 7) = some u →
        recentHits st.researchLimiter.hits ck t < 10 →
        processApiRequest env st store ⟨some h, ck, t, .research topic dm style⟩
          = ⟨(generateResearchHandler env.research (some u) topic dm style).1,
             ⟨⟨(ck, t) :: st.researchLimiter.hits⟩, st.audioLimiter⟩, store,
             .authVerify (jsDrop h 7)
               :: (generateResearchHandler env.research (some u) topic dm style).2⟩)
    ∧ (∀ (env : Env) (st : ServerState) (store : Option Store) (h : String)
         (u : User) (sf : ScriptField) (ck : String) (t : Nat),
        jsStartsWith h "Bearer " = true → env.authConfigured = true →
        env.tokenUser (jsDrop h 7) = some u →
        recentHits st.audioLimiter.hits ck t < 5 →
        processApiRequest env st store ⟨some h, ck, t, .audio sf⟩
          = ⟨(generateAudioHandler env.audio sf).1,
             ⟨st.researchLimiter, ⟨(ck, t) :: st.audioLimiter.hits⟩⟩, store,
             .authVerify (jsDrop h 7) :: (generateAudioHandler env.audio sf).2⟩) := by
  refine ⟨?_, ?_, ?_, ?_, ?_, ?_⟩
  · intro rs key T
    have h := limiter_window_bound 10 key T rs ⟨[]⟩ (by simp [hitsInWindow])
    simpa [hitsInWindow] using h
  · intro rs key T
    have h := limiter_window_bound 5 key T rs ⟨[]⟩ (by simp [hitsInWindow])
    simpa [hitsInWindow] using h
  · intro env st store h u topic dm style ck t hb hc htok hfull
    simp [processApiRequest, dispatchRoute, limiterCheck, hb, hc, htok, hfull]
  · intro env st store h u sf ck t hb hc htok hfull
    simp [processApiRequest, dispatchRoute, limiterCheck, hb, hc, htok, hfull]
  · intro env st store h u topic dm style ck t hb hc htok hok
    simp [processApiRequest, dispatchRoute, limiterCheck, hb, hc, htok, hok]
  · intro env st store h u sf ck t hb hc htok hok
    simp [processApiRequest, dispatchRoute, limiterCheck, hb, hc, htok, hok]

/-- C7 witness: eleven consecutive research requests admit at most ten; a
client with an exhausted cap gets 429 on each route with the state frozen;
a fresh client is admitted, its timestamp recorded in the right limiter. -/
theorem c7_witness :
    acceptedInWindow "client-a" 0
        (processLimiterSeq 10 ⟨[]⟩ (List.replicate 11 ("client-a", 0))).1 ≤ 10
    ∧ acceptedInWindow "client-a" 0
        (processLimiterSeq 5 ⟨[]⟩ (List.replicate 6 ("client-a", 0))).1 ≤ 5
    ∧ processApiRequest sampleEnv loadedState none
        ⟨some "Bearer tok", "client-a", 1,
          .research (.vstr "t") (.vnum 10) (.vstr "conversational")⟩
      = ⟨⟨429, .errorMsg researchLimitMessage⟩, loadedState, none, [.authVerify "tok"]⟩
    ∧ processApiRequest sampleEnv loadedState none
        ⟨some "Bearer tok", "client-a", 1, .audio (.lines [⟨"Host", "hi", none⟩])⟩
      = ⟨⟨429, .errorMsg audioLimitMessage⟩, loadedState, none, [.authVerify "tok"]⟩
    ∧ processApiRequest sampleEnv sampleState none
        ⟨some "Bearer tok", "client-b", 7,
          .research (.vstr "t") (.vnum 10) (.vstr "conversational")⟩
      = ⟨⟨200, .scriptResult [] none⟩, ⟨⟨[("client-b", 7)]⟩, ⟨[]⟩⟩, none,
         [.authVerify "tok", .pythonGenerate "t" 10 "conversational",
          .dbInsert "user-1" "t" 10 "conversational" []]⟩
    ∧ processApiRequest sampleEnv sampleState none
        ⟨some "Bearer tok", "client-b", 7, .audio (.lines [⟨"Host", "hi", none⟩])⟩
      = ⟨⟨200, .audioFile "AUDIO"⟩, ⟨⟨[]⟩, ⟨[("client-b", 7)]⟩⟩, none,
         [.authVerify "tok", .tts "hi" defaultVoiceId]⟩ := by
  refine ⟨c7_rate_limits.1 _ _ _, c7_rate_limits.2.1 _ _ _, ?_, ?_, ?_, ?_⟩
  · exact c7_rate_limits.2.2.1 sampleEnv loadedState none "Bearer tok" sampleUser
      (.vstr "t") (.vnum 10) (.vstr "conversational") "client-a" 1
      (by decide) rfl rfl (by decide)
  · exact c7_rate_limits.2.2.2.1 sampleEnv loadedState none "Bearer tok" sampleUser
      (.lines [⟨"Host", "hi", none⟩]) "client-a" 1
      (by decide) rfl rfl (by decide)
  · exact c7_rate_limits.2.2.2.2.1 sampleEnv sampleState none "Bearer tok" sampleUser
      (.vstr "t") (.vnum 10) (.vstr "conversational") "client-b" 7
      (by decide) rfl rfl (by decide)
  · exact c7_rate_limits.2.2.2.2.2 sampleEnv sampleState none "Bearer tok" sampleUser
      (.lines [⟨"Host", "hi", none⟩]) "client-b" 7
      (by decide) rfl rfl (by decide)

/-- C4: if durationMinutes is not a number or lies outside [5, 120], the
generate-research handler answers 400 and makes no external call at all;
and the duration check itself passes at exactly 5 and at exactly 120. -/
theorem c4_duration_validation :
    (∀ (env : ResearchEnv) (user : Option User) (topic dm style : JsonVal),
      (dm.isNumber = false ∨ dm.asNum < 5 ∨ 120 < dm.asNum) →
        (generateResearchHandler env user topic dm style).1.status = 400
        ∧ (generateResearchHandler env user topic dm style).2 = [])
    ∧ ¬ durationInvalid (.vnum 5) ∧ ¬ durationInvalid (.vnum 120) := by
  refine ⟨?_, by decide, by decide⟩
  intro env user topic dm style h
  have hd : durationInvalid dm := by
    rcases h with h | h | h
    · exact Or.inr (Or.inl (by simp [h]))
    · exact Or.inr (Or.inr (Or.inl h))
    · exact Or.inr (Or.inr (Or.inr h))
  unfold generateResearchHandler
  by_cases ht : topicInvalid topic
  · rw [if_pos ht]; exact ⟨rfl, rfl⟩
  · rw [if_neg ht, if_pos hd]; exact ⟨rfl, rfl⟩

/-- C4 witness: durationMinutes = 4 is rejected with 400 and no call. -/
theorem c4_witness :
    ((JsonVal.vnum 4).isNumber = false ∨ (JsonVal.vnum 4).asNum < 5 ∨ 120 < (JsonVal.vnum 4).asNum)
    ∧ (generateResearchHandler sampleResearchEnv (some sampleUser)
        (.vstr "t") (.vnum 4) (.vstr "conversational")).1.status = 400
    ∧ (generateResearchHandler sampleResearchEnv (some sampleUser)
        (.vstr "t") (.vnum 4) (.vstr "conversational")).2 = [] := by
  have h : (JsonVal.vnum 4).isNumber = false ∨ (JsonVal.vnum 4).asNum < 5
      ∨ 120 < (JsonVal.vnum 4).asNum := by
    right; left; norm_num [JsonVal.asNum]
  exact ⟨h, (c4_duration_validation.1 sampleResearchEnv (some sampleUser)
    (.vstr "t") (.vnum 4) (.vstr "conversational") h).1,
    (c4_duration_validation.1 sampleResearchEnv (some sampleUser)
    (.vstr "t") (.vnum 4) (.vstr "conversational") h).2⟩

end AIPodcast
